import Mathlib

/-
  Verification of the RPC dispatch core of the `chutes` repository
  (src/chutes/chute/cord.py), as a shallow embedding in Lean 4.

  The embedding models:
  - the Python value domain used for call arguments and stream events,
  - path normalization / validation (`Cord.path` setter, `PATH_RE`),
  - the argument envelope codec (base64 over gzip over pickle),
  - the provisioning handling of `Cord._local_call_base`, including
    the composition of `backoff.on_exception` with
    `asynccontextmanager`,
  - the streaming local stub (`Cord._local_stream_call`) and the unary
    wrapper (`Cord._local_call`),
  - the remote handler (`Cord._request_handler`, `Cord._remote_call`,
    `Cord._remote_stream_call`, `Cord._passthrough_call`),
  - endpoint binding (`Cord.__call__`).
-/

namespace Chutes

/-- Python-like value domain for call arguments, JSON bodies and
server-sent stream events (None, bool, int, str, list, dict). -/
inductive PyVal where
  | none
  | bool (b : Bool)
  | int (n : Int)
  | str (s : String)
  | list (xs : List PyVal)
  | dict (kvs : List (String × PyVal))

/-- Python truthiness (`bool(v)`): None, False, 0, "", [] and the empty
dict are falsy, everything else is truthy. -/
def truthy : PyVal → Bool
  | PyVal.none => false
  | PyVal.bool b => b
  | PyVal.int n => !(n == 0)
  | PyVal.str s => !(s == "")
  | PyVal.list xs => !xs.isEmpty
  | PyVal.dict kvs => !kvs.isEmpty

/-- A parsed JSON object (a server-sent `data: ...` frame after
`json.loads`): association list from keys to values. -/
abbrev PyDict := List (String × PyVal)

/-- Python `d.get(k)` on a parsed JSON object: the value under `k`,
or None when the key is absent. -/
def dictGet (d : PyDict) (k : String) : PyVal :=
  match d.lookup k with
  | Option.some v => v
  | Option.none => PyVal.none

mutual

/-- Python `repr` for the value domain (used by str() on containers). -/
def pyRepr : PyVal → String
  | PyVal.none => "None"
  | PyVal.bool true => "True"
  | PyVal.bool false => "False"
  | PyVal.int n => toString n
  | PyVal.str s => "\x27" ++ s ++ "\x27"
  | PyVal.list xs => "[" ++ pyReprSeq xs ++ "]"
  | PyVal.dict kvs => "\x7b" ++ pyReprItems kvs ++ "\x7d"

/-- Comma-separated reprs of the elements of a list. -/
def pyReprSeq : List PyVal → String
  | [] => ""
  | [v] => pyRepr v
  | v :: vs => pyRepr v ++ ", " ++ pyReprSeq vs

/-- Comma-separated reprs of the items of a dict. -/
def pyReprItems : List (String × PyVal) → String
  | [] => ""
  | [(k, v)] => "\x27" ++ k ++ "\x27: " ++ pyRepr v
  | (k, v) :: kvs => "\x27" ++ k ++ "\x27: " ++ pyRepr v ++ ", " ++ pyReprItems kvs

end

/-- Python `str(v)`: strings unquoted at top level, `repr` otherwise. -/
def pyStr : PyVal → String
  | PyVal.str s => s
  | v => pyRepr v

/-- Character class `[a-z0-9]` of `PATH_RE` (cord.py line 21): the
character a path segment must start with. -/
def isStartChar (c : Char) : Bool :=
  (decide ('a' ≤ c) && decide (c ≤ 'z')) || (decide ('0' ≤ c) && decide (c ≤ '9'))

/-- Character class `[a-z0-9-_]` of `PATH_RE`: the characters a path
segment may continue with. -/
def isSegChar (c : Char) : Bool :=
  isStartChar c || c == '-' || c == '_'

/-- Matcher for the anchored regex `PATH_RE = ^(/[a-z0-9]+[a-z0-9-_]*)+$`
after the initial slash has been consumed.  The flag is `true` exactly
when the previous character was a slash, i.e. a new segment must begin
with a `[a-z0-9]` character.  Since a segment is one or more `[a-z0-9]`
followed by any number of `[a-z0-9-_]`, and `[a-z0-9]` is contained in
`[a-z0-9-_]`, a segment is equivalently a `[a-z0-9]` head followed by
`[a-z0-9-_]` characters. -/
def reMatch : Bool → List Char → Bool
  | atStart, [] => !atStart
  | true, c :: cs => isStartChar c && reMatch false cs
  | false, c :: cs => if c == '/' then reMatch true cs else isSegChar c && reMatch false cs

/-- `PATH_RE.match(s)` as a Bool: the whole string is one or more
groups `/[a-z0-9]+[a-z0-9-_]*`. -/
def PATH_RE_match (s : String) : Bool :=
  match s.data with
  | '/' :: cs => reMatch true cs
  | _ => false

/-- Whether the character list contains two consecutive slashes. -/
def hasDoubleSlash : List Char → Bool
  | a :: b :: rest => (a == '/' && b == '/') || hasDoubleSlash (b :: rest)
  | _ => false

/-- Python `"//" in path` (cord.py line 76). -/
def containsDoubleSlash (s : String) : Bool :=
  hasDoubleSlash s.data

/-- Python `path.lstrip("/").rstrip("/")`: remove every leading and
every trailing slash. -/
def stripSlashes (cs : List Char) : List Char :=
  ((cs.dropWhile (fun c => c == '/')).reverse.dropWhile (fun c => c == '/')).reverse

/-- The normalization `path = "/" + path.lstrip("/").rstrip("/")`
performed by the path setters (cord.py lines 75, 98, 119). -/
def normalizePath (s : String) : String :=
  String.mk ('/' :: stripSlashes s.data)

/-- Declaration-time path errors raised by the setters
(chutes/exception.py): `InvalidPath` and `DuplicatePath`. -/
inductive PathError where
  | invalidPath (p : String)
  | duplicatePath (p : String)
deriving DecidableEq

/-- The per-endpoint configuration captured by `Cord.__init__`
(cord.py lines 25-57), with the constructor's default values.  The
`_func` attribute is passed separately where needed, and
`session_kwargs` / `passthrough_port` do not bear on any claim. -/
structure Cord where
  stream : Bool := false
  path : Option String := Option.none
  passthrough_path : Option String := Option.none
  passthrough : Bool := false
  public_api_path : Option String := Option.none
  public_api_method : String := "POST"
  method : String := "GET"
  provision_timeout : Nat := 180
deriving DecidableEq

/-- The `Cord.path` setter (cord.py lines 66-80): normalize, validate
against `PATH_RE` and the double-slash check, then reject duplicates
among the owning chute's already registered cords.  The owning
`Chute.cords` container is not under src/; per the spec an owner holds
the endpoints registered so far, so it is passed as the list `cords`. -/
def setPath (cords : List Cord) (p : String) : Except PathError String :=
  let q := normalizePath p
  if containsDoubleSlash q || !PATH_RE_match q then
    Except.error (PathError.invalidPath q)
  else if cords.any (fun c => c.path == Option.some q) then
    Except.error (PathError.duplicatePath q)
  else
    Except.ok q

/-- The `Cord.passthrough_path` setter (cord.py lines 89-101): same
normalization and grammar validation, but no duplicate check. -/
def setPassthroughPath (p : String) : Except PathError String :=
  let q := normalizePath p
  if containsDoubleSlash q || !PATH_RE_match q then
    Except.error (PathError.invalidPath q)
  else
    Except.ok q

/-- The effect of `self.path = p` on the cord's state: on success the
normalized path is stored, on failure the exception propagates and the
state is left unchanged. -/
def Cord.trySetPath (cords : List Cord) (c : Cord) (p : String) : Except PathError Cord :=
  match setPath cords p with
  | Except.ok q => Except.ok { c with path := Option.some q }
  | Except.error e => Except.error e

/-- The effect of `self.passthrough_path = p` on the cord's state. -/
def Cord.trySetPassthroughPath (c : Cord) (p : String) : Except PathError Cord :=
  match setPassthroughPath p with
  | Except.ok q => Except.ok { c with passthrough_path := Option.some q }
  | Except.error e => Except.error e

/-- `Cord.__call__` path binding (cord.py lines 308-313): when no
primary path was configured the wrapped function's `__name__` is used
as the candidate, and likewise for the passthrough path. -/
def bindCord (cords : List Cord) (c : Cord) (funcName : String) : Except PathError Cord :=
  match (if c.path == Option.none then Cord.trySetPath cords c funcName else Except.ok c) with
  | Except.error e => Except.error e
  | Except.ok c1 =>
    match (if c1.passthrough_path == Option.none then Cord.trySetPassthroughPath c1 funcName
           else Except.ok c1) with
    | Except.error e => Except.error e
    | Except.ok c2 => Except.ok c2

/-! ## Streaming local stub (`Cord._local_stream_call`, `Cord._local_call`)

The SSE transport layer (chunk decoding, the data-prefix filter and
`json.loads(content[6:])`, cord.py lines 197-201) is performed by the
`aiohttp`/`orjson` collaborators; frames are modelled as the parsed
JSON objects the loop dispatches on. -/

/-- Final state of the streamed response: exhausted normally, or
aborted by `raise Exception(data["error"])` (cord.py line 220). -/
inductive StreamOutcome where
  | done
  | errored (e : PyVal)

/-- The log line built for a trace frame (cord.py lines 203-216):
`timestamp + " [" + " ".join(key=value for other keys) + "]: " + message`.
A well-formed trace value is a dict; on any other value the source
would fail on `.items()`, which no claim exercises. -/
def traceMessage (tr : PyVal) : String :=
  match tr with
  | PyVal.dict kvs =>
      pyStr (dictGet kvs "timestamp")
        ++ " ["
        ++ String.intercalate " "
            ((kvs.filter (fun kv => !(kv.1 == "timestamp") && !(kv.1 == "message"))).map
              (fun kv => kv.1 ++ "=" ++ pyStr kv.2))
        ++ "]: "
        ++ pyStr (dictGet kvs "message")
  | v => pyStr v

/-- `Cord._local_stream_call` (cord.py lines 190-225) on the parsed
frames of the response: returns the values yielded to the caller, the
lines logged, and the outcome.  A frame with a truthy `trace` is logged
and skipped; otherwise a truthy `error` is logged and raised, aborting
the stream; otherwise a truthy `result` is yielded (post-processed by
the wrapped function when the cord is a passthrough); any other frame
is skipped. -/
def localStreamCall (passthrough : Bool) (func : PyVal → PyVal) :
    List PyDict → List PyVal × List String × StreamOutcome
  | [] => ([], [], StreamOutcome.done)
  | data :: rest =>
    if truthy (dictGet data "trace") then
      let r := localStreamCall passthrough func rest
      (r.1, traceMessage (dictGet data "trace") :: r.2.1, r.2.2)
    else if truthy (dictGet data "error") then
      ([], [pyStr (dictGet data "error")], StreamOutcome.errored (dictGet data "error"))
    else if truthy (dictGet data "result") then
      let v := if passthrough then func (dictGet data "result") else dictGet data "result"
      let r := localStreamCall passthrough func rest
      (v :: r.1, r.2.1, r.2.2)
    else
      localStreamCall passthrough func rest

/-- `Cord._local_call` (cord.py lines 181-188): drain the streaming
call keeping the last yielded item (initially None); an exception
raised by the stream propagates. -/
def localCall (passthrough : Bool) (func : PyVal → PyVal) (frames : List PyDict) :
    Except PyVal PyVal :=
  match localStreamCall passthrough func frames with
  | (ys, _, StreamOutcome.done) => Except.ok ((ys.getLast?).getD PyVal.none)
  | (_, _, StreamOutcome.errored e) => Except.error e

/-- A server-sent frame carrying a result value. -/
def resultFrame (v : PyVal) : PyDict := [("result", v)]

/-- A server-sent frame carrying an error value. -/
def errorFrame (e : PyVal) : PyDict := [("error", e)]

/-- A server-sent trace frame with a timestamp and a message. -/
def traceFrame (ts msg : String) : PyDict :=
  [("trace", PyVal.dict [("timestamp", PyVal.str ts), ("message", PyVal.str msg)])]

/-! ## Provisioning handling in `Cord._local_call_base`

The source stacks `@backoff.on_exception(...)` on top of
`@asynccontextmanager` (cord.py lines 132-140).  The
`@asynccontextmanager`-decorated `_call` is a plain synchronous
function returning an async context manager, not a coroutine function,
so backoff installs its synchronous retry wrapper, whose try block
guards only the call `_call()` — the construction of the context
manager, which performs no I/O and raises nothing.  The body of
`_call` (the HTTP attempt, which raises `StillProvisioning` on 503)
runs only at `async with _call() as response:` (line 175), outside
backoff's guarded region, so its exceptions escape to the caller on
the first attempt. -/

/-- An HTTP response as seen by `_local_call_base`: status code and
body text. -/
structure Resp where
  status : Nat
  body : String
deriving DecidableEq

/-- Exceptions raised by the body of `_call` (cord.py lines 157-172):
`StillProvisioning(text)` on a 503, the generic `Exception(text)` on
any other non-200. -/
inductive CallExc where
  | stillProvisioning (detail : String)
  | other (detail : String)
deriving DecidableEq

/-- The body of `_call` up to its `yield` (cord.py lines 157-172), run
at context entry: a 503 raises `StillProvisioning(text)`, any other
non-200 raises `Exception(text)`, a 200 yields the response. -/
def attemptExc (r : Resp) : Except CallExc Resp :=
  if r.status == 503 then Except.error (CallExc.stillProvisioning r.body)
  else if !(r.status == 200) then Except.error (CallExc.other r.body)
  else Except.ok r

/-- The async context manager produced by the
`@asynccontextmanager`-decorated `_call`: entering it runs the body
(one HTTP attempt). -/
structure AsyncCM where
  enter : Unit → Except CallExc Resp

/-- Calling the decorated `_call` (what backoff's wrapper invokes):
the `n`-th construction returns the context manager whose entry
performs the `n`-th HTTP attempt.  Construction itself performs no I/O
and raises nothing, hence always `Except.ok`. -/
def callConstruct (responses : Nat → Resp) (n : Nat) : Except CallExc AsyncCM :=
  Except.ok { enter := fun _ => attemptExc (responses n) }

/-- The synchronous retry wrapper `backoff.on_exception(backoff.constant,
(StillProvisioning,), jitter=None, interval=1, max_time=...)` installs
around its target (cord.py lines 132-138), over a discrete clock:
retry the guarded call while it raises `StillProvisioning`, sleeping
the constant 1-second interval, re-raising once the elapsed time
reaches `max_time` (so `remaining` further retries are allowed); any
other exception propagates immediately.  The second component counts
the calls of the target. -/
def backoffSync {α : Type} (target : Nat → Except CallExc α) :
    Nat → Nat → Except CallExc α × Nat
  | 0, attempt => (target attempt, attempt + 1)
  | remaining + 1, attempt =>
    match target attempt with
    | Except.error (CallExc.stillProvisioning _) =>
        backoffSync target remaining (attempt + 1)
    | r => (r, attempt + 1)

/-- `Cord._local_call_base` (cord.py lines 124-179): backoff's wrapper
(budget `provision_timeout`) runs around the construction of the
context manager; the outer body then enters the returned context
manager exactly once (`async with _call() as response`, line 175),
issuing the single HTTP request, whose exceptions are outside the
guarded region.  The second component counts the HTTP requests
issued. -/
def localCallBase (c : Cord) (responses : Nat → Resp) : Except CallExc Resp × Nat :=
  match backoffSync (callConstruct responses) c.provision_timeout 0 with
  | (Except.ok cm, _) => (cm.enter (), 1)
  | (Except.error e, _) => (Except.error e, 0)

/-! ## Argument envelope codec (C1)

The source builds `base64.b64encode(gzip.compress(pickle.dumps(x))).decode()`
per component (cord.py lines 141-146) and reverses it with
`fickling.load(gzip.decompress(base64.b64decode(...)))` (lines 295-296).
pickle, gzip and pybase64 are external collaborators; they enter the
round-trip theorem as function parameters constrained by their library
round-trip contracts at the encoded values. -/

/-- One component of the request payload:
`base64.b64encode(gzip.compress(pickle.dumps(v))).decode()`. -/
def encodeOne (dumps : PyVal → List Nat) (compress : List Nat → List Nat)
    (enc64 : List Nat → String) (v : PyVal) : String :=
  enc64 (compress (dumps v))

/-- The request payload of `_local_call_base` (cord.py lines 141-146):
args and kwargs encoded independently. -/
def encodeEnvelope (dumps : PyVal → List Nat) (compress : List Nat → List Nat)
    (enc64 : List Nat → String) (args kwargs : PyVal) : String × String :=
  (encodeOne dumps compress enc64 args, encodeOne dumps compress enc64 kwargs)

/-- One component of the decode chain of `_request_handler`:
`fickling.load(gzip.decompress(base64.b64decode(t)))`, where
`fickling.load` either returns the value or raises. -/
def decodeOne (loads : List Nat → Except String PyVal) (decompress : List Nat → List Nat)
    (dec64 : String → List Nat) (t : String) : Except String PyVal :=
  loads (decompress (dec64 t))

/-- The decode side of the envelope (cord.py lines 295-296): args
first, then kwargs; the first failure propagates. -/
def decodeEnvelope (loads : List Nat → Except String PyVal)
    (decompress : List Nat → List Nat) (dec64 : String → List Nat)
    (ea ek : String) : Except String (PyVal × PyVal) :=
  match decodeOne loads decompress dec64 ea with
  | Except.error e => Except.error e
  | Except.ok a =>
    match decodeOne loads decompress dec64 ek with
    | Except.error e => Except.error e
    | Except.ok k => Except.ok (a, k)

/-! ### Concrete collaborator instances used by the round-trip witness

These are executable stand-ins for the external pickle / gzip /
pybase64 collaborators, used only to instantiate the parametric
round-trip theorem at a concrete input.  `pvEnc`/`pvDec` is an
injective tag-length serialization of the value domain; the gzip
stand-in prepends the two gzip magic bytes; the text encoding writes
each byte in unary separated by semicolons. -/

mutual

/-- Serialize a value to bytes (pickle stand-in). -/
def pvEnc : PyVal → List Nat
  | PyVal.none => [0]
  | PyVal.bool b => [1, if b then 1 else 0]
  | PyVal.int n => [2, if n < 0 then 1 else 0, n.natAbs]
  | PyVal.str s => 3 :: s.length :: s.data.map Char.toNat
  | PyVal.list xs => 4 :: xs.length :: pvEncList xs
  | PyVal.dict kvs => 5 :: kvs.length :: pvEncKVs kvs

/-- Serialize the elements of a list, concatenated. -/
def pvEncList : List PyVal → List Nat
  | [] => []
  | v :: vs => pvEnc v ++ pvEncList vs

/-- Serialize the items of a dict, concatenated. -/
def pvEncKVs : List (String × PyVal) → List Nat
  | [] => []
  | (k, v) :: kvs => (k.length :: k.data.map Char.toNat) ++ pvEnc v ++ pvEncKVs kvs

end

/-- Read `n` characters from a byte list. -/
def takeChars : Nat → List Nat → Option (String × List Nat)
  | 0, bs => Option.some ("", bs)
  | n + 1, b :: bs =>
    match takeChars n bs with
    | Option.some (s, rest) => Option.some (String.mk (Char.ofNat b :: s.data), rest)
    | Option.none => Option.none
  | _ + 1, [] => Option.none

mutual

/-- Deserialize one value from a byte list (fuel-bounded). -/
def pvDec : Nat → List Nat → Option (PyVal × List Nat)
  | 0, _ => Option.none
  | fuel + 1, bs =>
    match bs with
    | 0 :: r => Option.some (PyVal.none, r)
    | 1 :: b :: r => Option.some (PyVal.bool (b == 1), r)
    | 2 :: sgn :: m :: r =>
      Option.some (PyVal.int (if sgn == 1 then -(m : Int) else (m : Int)), r)
    | 3 :: n :: r =>
      match takeChars n r with
      | Option.some (s, rest) => Option.some (PyVal.str s, rest)
      | Option.none => Option.none
    | 4 :: n :: r =>
      match pvDecList fuel n r with
      | Option.some (xs, rest) => Option.some (PyVal.list xs, rest)
      | Option.none => Option.none
    | 5 :: n :: r =>
      match pvDecKVs fuel n r with
      | Option.some (kvs, rest) => Option.some (PyVal.dict kvs, rest)
      | Option.none => Option.none
    | _ => Option.none

/-- Deserialize `n` list elements (fuel-bounded). -/
def pvDecList : Nat → Nat → List Nat → Option (List PyVal × List Nat)
  | 0, _, _ => Option.none
  | _ + 1, 0, r => Option.some ([], r)
  | fuel + 1, n + 1, r =>
    match pvDec fuel r with
    | Option.some (v, r1) =>
      match pvDecList fuel n r1 with
      | Option.some (vs, r2) => Option.some (v :: vs, r2)
      | Option.none => Option.none
    | Option.none => Option.none

/-- Deserialize `n` dict items (fuel-bounded). -/
def pvDecKVs : Nat → Nat → List Nat → Option (List (String × PyVal) × List Nat)
  | 0, _, _ => Option.none
  | _ + 1, 0, r => Option.some ([], r)
  | fuel + 1, n + 1, r =>
    match r with
    | kn :: r0 =>
      match takeChars kn r0 with
      | Option.some (k, r1) =>
        match pvDec fuel r1 with
        | Option.some (v, r2) =>
          match pvDecKVs fuel n r2 with
          | Option.some (kvs, r3) => Option.some ((k, v) :: kvs, r3)
          | Option.none => Option.none
        | Option.none => Option.none
      | Option.none => Option.none
    | [] => Option.none

end

/-- Deserialize a whole byte list (fickling-load stand-in for safe
payloads): fails unless exactly one value consumes the input. -/
def pvLoads (bs : List Nat) : Except String PyVal :=
  match pvDec (bs.length + 1) bs with
  | Option.some (v, []) => Except.ok v
  | _ => Except.error "UnpicklingError"

/-- Gzip-compress stand-in: prepend the gzip magic bytes. -/
def gzipCompress (bs : List Nat) : List Nat := 31 :: 139 :: bs

/-- Gzip-decompress stand-in: drop the gzip magic bytes. -/
def gzipDecompress (bs : List Nat) : List Nat := bs.drop 2

/-- `n` tally marks. -/
def natToMarks : Nat → List Char
  | 0 => []
  | n + 1 => 'x' :: natToMarks n

/-- Text-safe byte encoding stand-in (pybase64 stand-in): each byte in
unary, terminated by a semicolon. -/
def textEncode (bs : List Nat) : String :=
  String.mk (bs.foldr (fun n acc => natToMarks n ++ (';' :: acc)) [])

/-- Decoder loop for `textEncode`. -/
def textDecodeAux : List Char → Nat → List Nat
  | [], _ => []
  | ';' :: cs, acc => acc :: textDecodeAux cs 0
  | _ :: cs, acc => textDecodeAux cs (acc + 1)

/-- Inverse of `textEncode`. -/
def textDecode (s : String) : List Nat :=
  textDecodeAux s.data 0

/-- Sample positional arguments for the round-trip witness. -/
def argsSample : PyVal :=
  PyVal.list [PyVal.int 2, PyVal.str "a", PyVal.none]

/-- Sample keyword arguments for the round-trip witness. -/
def kwargsSample : PyVal :=
  PyVal.dict [("k", PyVal.bool true), ("n", PyVal.int (-3))]

/-! ## Remote handler (`Cord._request_handler` and friends) -/

/-- A response from the local sidecar service contacted by
`_passthrough_call` (cord.py lines 227-241): its status, its JSON body
(read by `_remote_call`) and its body chunks (read by
`_remote_stream_call`). -/
structure SidecarResponse where
  status : Nat
  jsonBody : PyVal
  chunks : List (List Nat)

/-- `Cord._passthrough_call`: a single request to the sidecar — the
source applies no retry decorator, so only the first call of the
sidecar behavior function is ever consulted, and a sidecar failure
(modelled as `Except.error`) propagates. -/
def passthroughCall (sidecar : Nat → Except String SidecarResponse) :
    Except String SidecarResponse :=
  sidecar 0

/-- `Cord._remote_call` (cord.py lines 243-263), restricted to one
positional argument: in passthrough mode forward to the sidecar and
return `await response.json()` unchanged; otherwise invoke the wrapped
function. -/
def remoteCall (c : Cord) (func : PyVal → PyVal)
    (sidecar : Nat → Except String SidecarResponse) (arg : PyVal) :
    Except String PyVal :=
  if c.passthrough then
    match passthroughCall sidecar with
    | Except.ok r => Except.ok r.jsonBody
    | Except.error e => Except.error e
  else
    Except.ok (func arg)

/-- `Cord._remote_stream_call` (cord.py lines 265-285): in passthrough
mode relay the sidecar's body chunks unchanged and in order; otherwise
stream the wrapped function's output. -/
def remoteStreamCall (c : Cord) (funcStream : PyVal → List (List Nat))
    (sidecar : Nat → Except String SidecarResponse) (arg : PyVal) :
    Except String (List (List Nat)) :=
  if c.passthrough then
    match passthroughCall sidecar with
    | Except.ok r => Except.ok r.chunks
    | Except.error e => Except.error e
  else
    Except.ok (funcStream arg)

/-- Modelled from the spec: the `status` module imported from fastapi
(cord.py line 10) is starlette's `status` module, an external
collaborator whose 4xx constants are `HTTP_400_BAD_REQUEST` through
`HTTP_451_UNAVAILABLE_FOR_LEGAL_REASONS`; it defines
`HTTP_401_UNAUTHORIZED` and `HTTP_403_FORBIDDEN` but no attribute
named `HTTP_401_FORBIDDEN`. -/
def starletteStatus4xx : List (String × Nat) :=
  [("HTTP_400_BAD_REQUEST", 400),
   ("HTTP_401_UNAUTHORIZED", 401),
   ("HTTP_402_PAYMENT_REQUIRED", 402),
   ("HTTP_403_FORBIDDEN", 403),
   ("HTTP_404_NOT_FOUND", 404),
   ("HTTP_405_METHOD_NOT_ALLOWED", 405),
   ("HTTP_406_NOT_ACCEPTABLE", 406),
   ("HTTP_407_PROXY_AUTHENTICATION_REQUIRED", 407),
   ("HTTP_408_REQUEST_TIMEOUT", 408),
   ("HTTP_409_CONFLICT", 409),
   ("HTTP_410_GONE", 410),
   ("HTTP_411_LENGTH_REQUIRED", 411),
   ("HTTP_412_PRECONDITION_FAILED", 412),
   ("HTTP_413_REQUEST_ENTITY_TOO_LARGE", 413),
   ("HTTP_414_REQUEST_URI_TOO_LONG", 414),
   ("HTTP_415_UNSUPPORTED_MEDIA_TYPE", 415),
   ("HTTP_416_REQUESTED_RANGE_NOT_SATISFIABLE", 416),
   ("HTTP_417_EXPECTATION_FAILED", 417),
   ("HTTP_418_IM_A_TEAPOT", 418),
   ("HTTP_421_MISDIRECTED_REQUEST", 421),
   ("HTTP_422_UNPROCESSABLE_ENTITY", 422),
   ("HTTP_423_LOCKED", 423),
   ("HTTP_424_FAILED_DEPENDENCY", 424),
   ("HTTP_425_TOO_EARLY", 425),
   ("HTTP_426_UPGRADE_REQUIRED", 426),
   ("HTTP_428_PRECONDITION_REQUIRED", 428),
   ("HTTP_429_TOO_MANY_REQUESTS", 429),
   ("HTTP_431_REQUEST_HEADER_FIELDS_TOO_LARGE", 431),
   ("HTTP_451_UNAVAILABLE_FOR_LEGAL_REASONS", 451)]

/-- Python attribute lookup `getattr(status, name)` on the status
module: `Option.none` models the `AttributeError` raised for a name
that does not exist. -/
def statusAttr (name : String) : Option Nat :=
  starletteStatus4xx.lookup name

/-- What the inbound HTTP framework (FastAPI) sends back for one
request: a JSON body, a streamed body, a deliberate `HTTPException`
with status code and detail, or a generic 500 server error produced
from an uncaught exception. -/
inductive HandlerResult where
  | json (v : PyVal)
  | streamed (chunks : List (List Nat))
  | httpError (code : Nat) (detail : String)
  | serverError (message : String)

/-- The detail text built in the `except UnsafeFileError` branch
(cord.py line 298). -/
def hazardMessage (exc : String) : String :=
  "Detected potentially hazardous call arguments, blocking: " ++ exc

/-- The body of the `except fickling.exception.UnsafeFileError` branch
(cord.py lines 297-303): it evaluates `status.HTTP_401_FORBIDDEN` to
build the `HTTPException`; if the attribute existed the handler would
respond with it, but since it does not, the branch itself raises
`AttributeError`, which surfaces as a generic server error. -/
def rejectHazard (exc : String) : HandlerResult :=
  match statusAttr "HTTP_401_FORBIDDEN" with
  | Option.some code => HandlerResult.httpError code (hazardMessage exc)
  | Option.none =>
      HandlerResult.serverError
        "AttributeError: module starlette.status has no attribute HTTP_401_FORBIDDEN"

/-- `Cord._request_handler` (cord.py lines 287-306): decode args then
kwargs (the fickling / gzip / base64 decode chain is passed in as the
two `Except` results); a decode rejection takes the `UnsafeFileError`
branch; otherwise dispatch to the streaming or unary remote call. -/
def requestHandler (c : Cord) (func : PyVal → PyVal)
    (funcStream : PyVal → List (List Nat))
    (sidecar : Nat → Except String SidecarResponse)
    (decodedArgs decodedKwargs : Except String PyVal) : HandlerResult :=
  match decodedArgs with
  | Except.error exc => rejectHazard exc
  | Except.ok a =>
    match decodedKwargs with
    | Except.error exc => rejectHazard exc
    | Except.ok _ =>
      if c.stream then
        match remoteStreamCall c funcStream sidecar a with
        | Except.ok chunks => HandlerResult.streamed chunks
        | Except.error e => HandlerResult.serverError e
      else
        match remoteCall c func sidecar a with
        | Except.ok v => HandlerResult.json v
        | Except.error e => HandlerResult.serverError e

/-! ## Helper lemmas -/

/-- A character accepted by `[a-z0-9]` is not a slash. -/
theorem isStartChar_ne_slash (c : Char) (h : isStartChar c = true) : (c == '/') = false := by
  by_cases hc : c = '/'
  · subst hc
    exact absurd h (by decide)
  · simp [hc]

/-- A string accepted by `reMatch` has no two consecutive slashes, and
when a segment start is expected its first character is in `[a-z0-9]`. -/
theorem reMatch_props (cs : List Char) : ∀ b : Bool, reMatch b cs = true →
    hasDoubleSlash cs = false ∧
      (b = true → ∀ x, cs.head? = Option.some x → isStartChar x = true) := by
  induction cs with
  | nil =>
    intro b _
    refine ⟨rfl, ?_⟩
    intro _ x hx
    simp at hx
  | cons c cs ih =>
    intro b h
    cases b with
    | true =>
      rw [show reMatch true (c :: cs) = (isStartChar c && reMatch false cs) from rfl] at h
      obtain ⟨hc, hrest⟩ := Bool.and_eq_true_iff.mp h
      obtain ⟨hds, _⟩ := ih false hrest
      refine ⟨?_, ?_⟩
      · cases cs with
        | nil => rfl
        | cons d t =>
          have hne := isStartChar_ne_slash c hc
          simp [hasDoubleSlash, hne]
          exact hds
      · intro _ x hx
        simp at hx
        subst hx
        exact hc
    | false =>
      rw [show reMatch false (c :: cs)
          = (if c == '/' then reMatch true cs else isSegChar c && reMatch false cs) from rfl] at h
      by_cases hc : c == '/'
      · rw [if_pos hc] at h
        obtain ⟨hds, hhead⟩ := ih true h
        refine ⟨?_, ?_⟩
        · cases cs with
          | nil => rfl
          | cons d t =>
            have hd : isStartChar d = true := hhead rfl d rfl
            have hne := isStartChar_ne_slash d hd
            simp [hasDoubleSlash, hne]
            exact hds
        · intro hfalse
          exact absurd hfalse (by simp)
      · rw [if_neg hc] at h
        obtain ⟨hseg, hrest⟩ := Bool.and_eq_true_iff.mp h
        obtain ⟨hds, _⟩ := ih false hrest
        refine ⟨?_, ?_⟩
        · cases cs with
          | nil => rfl
          | cons d t =>
            have hne : (c == '/') = false := by simpa using hc
            simp [hasDoubleSlash, hne]
            exact hds
        · intro hfalse
          exact absurd hfalse (by simp)

/-- A path matching `PATH_RE` contains no double slash, so the
redundant `"//" in path` test of the setters never fires on a
grammar-valid path. -/
theorem PATH_RE_no_double (s : String) (h : PATH_RE_match s = true) :
    containsDoubleSlash s = false := by
  unfold PATH_RE_match at h
  unfold containsDoubleSlash
  split at h
  · rename_i cs heq
    rw [heq]
    obtain ⟨hds, hhead⟩ := reMatch_props cs true h
    cases cs with
    | nil => rfl
    | cons d t =>
      have hd2 : isStartChar d = true := hhead rfl d rfl
      have hne := isStartChar_ne_slash d hd2
      simp [hasDoubleSlash, hne]
      exact hds
  · exact absurd h (by simp)

/-- On a grammar-valid candidate whose normalized form is not yet
registered, the `path` setter succeeds with the normalized form. -/
theorem setPath_ok_of (cords : List Cord) (p : String)
    (hfree : ∀ c ∈ cords, c.path ≠ Option.some (normalizePath p))
    (hm : PATH_RE_match (normalizePath p) = true) :
    setPath cords p = Except.ok (normalizePath p) := by
  have h1 := PATH_RE_no_double _ hm
  have hany : (cords.any fun c => c.path == Option.some (normalizePath p)) = false := by
    rw [List.any_eq_false]
    intro c hc
    simp only [beq_iff_eq]
    exact hfree c hc
  simp [setPath, h1, hm, hany]

/-- On a candidate whose normalized form fails the grammar, the `path`
setter raises `InvalidPath` with the normalized form. -/
theorem setPath_invalid_of (cords : List Cord) (p : String)
    (hm : PATH_RE_match (normalizePath p) = false) :
    setPath cords p = Except.error (PathError.invalidPath (normalizePath p)) := by
  simp [setPath, hm]

/-- On a candidate whose normalized form is already registered with the
same owner, the `path` setter raises `DuplicatePath`. -/
theorem setPath_duplicate_of (cords : List Cord) (p : String)
    (hdup : ∃ c ∈ cords, c.path = Option.some (normalizePath p))
    (hm : PATH_RE_match (normalizePath p) = true) :
    setPath cords p = Except.error (PathError.duplicatePath (normalizePath p)) := by
  have h1 := PATH_RE_no_double _ hm
  have hany : (cords.any fun c => c.path == Option.some (normalizePath p)) = true := by
    rw [List.any_eq_true]
    obtain ⟨c, hc, he⟩ := hdup
    exact ⟨c, hc, by simp [he]⟩
  simp [setPath, h1, hm, hany]

/-- The passthrough setter succeeds on a grammar-valid candidate. -/
theorem setPassthroughPath_ok_of (p : String)
    (hm : PATH_RE_match (normalizePath p) = true) :
    setPassthroughPath p = Except.ok (normalizePath p) := by
  have h1 := PATH_RE_no_double _ hm
  simp [setPassthroughPath, h1, hm]

/-- The passthrough setter raises `InvalidPath` on a grammar-invalid
candidate. -/
theorem setPassthroughPath_invalid_of (p : String)
    (hm : PATH_RE_match (normalizePath p) = false) :
    setPassthroughPath p = Except.error (PathError.invalidPath (normalizePath p)) := by
  simp [setPassthroughPath, hm]

/-- Constructing the context manager never raises, so backoff's
retry branch is dead: the wrapper returns the first construction after
a single guarded call, whatever the budget. -/
theorem backoffSync_callConstruct (responses : Nat → Resp) :
    ∀ remaining attempt, backoffSync (callConstruct responses) remaining attempt
      = (callConstruct responses attempt, attempt + 1) := by
  intro remaining attempt
  cases remaining <;> simp [backoffSync, callConstruct]

/-- None is falsy. -/
theorem truthy_none_eq : truthy PyVal.none = false := rfl

/-- A nonempty dict is truthy. -/
theorem truthy_dict_cons (k : String) (v : PyVal) (kvs : List (String × PyVal)) :
    truthy (PyVal.dict ((k, v) :: kvs)) = true := rfl

/-- Processing one result frame: a truthy value is yielded
(post-processed in passthrough mode), a falsy one is skipped. -/
theorem localStreamCall_result_cons (p : Bool) (f : PyVal → PyVal) (v : PyVal)
    (rest : List PyDict) :
    localStreamCall p f (resultFrame v :: rest) =
      if truthy v then
        ((if p then f v else v) :: (localStreamCall p f rest).1,
         (localStreamCall p f rest).2.1, (localStreamCall p f rest).2.2)
      else localStreamCall p f rest := by
  have h1 : dictGet (resultFrame v) "trace" = PyVal.none := rfl
  have h2 : dictGet (resultFrame v) "error" = PyVal.none := rfl
  have h3 : dictGet (resultFrame v) "result" = v := rfl
  simp [localStreamCall, h1, h2, h3, truthy_none_eq]

/-- Processing one error frame with a truthy error value: log it and
abort the stream. -/
theorem localStreamCall_error_cons (p : Bool) (f : PyVal → PyVal) (e : PyVal)
    (rest : List PyDict) (he : truthy e = true) :
    localStreamCall p f (errorFrame e :: rest)
      = ([], [pyStr e], StreamOutcome.errored e) := by
  have h1 : dictGet (errorFrame e) "trace" = PyVal.none := rfl
  have h2 : dictGet (errorFrame e) "error" = e := rfl
  simp [localStreamCall, h1, h2, truthy_none_eq, he]

/-- Processing one trace frame: log the composed message, yield
nothing, continue. -/
theorem localStreamCall_trace_cons (p : Bool) (f : PyVal → PyVal) (ts m : String)
    (rest : List PyDict) :
    localStreamCall p f (traceFrame ts m :: rest)
      = ((localStreamCall p f rest).1,
         traceMessage (PyVal.dict [("timestamp", PyVal.str ts), ("message", PyVal.str m)])
           :: (localStreamCall p f rest).2.1,
         (localStreamCall p f rest).2.2) := by
  have h1 : dictGet (traceFrame ts m) "trace"
      = PyVal.dict [("timestamp", PyVal.str ts), ("message", PyVal.str m)] := rfl
  simp [localStreamCall, h1, truthy_dict_cons]

/-- A stream of pure result frames yields exactly its truthy values, in
order, logging nothing. -/
theorem localStreamCall_results (f : PyVal → PyVal) (vs : List PyVal) :
    localStreamCall false f (vs.map resultFrame)
      = (vs.filter (fun v => truthy v), [], StreamOutcome.done) := by
  induction vs with
  | nil => rfl
  | cons v vs ih =>
    by_cases hv : truthy v <;>
      simp [localStreamCall_result_cons, hv, ih, List.filter_cons]

/-- Result frames followed by a truthy error frame: the truthy results
are yielded, then the error aborts. -/
theorem localStreamCall_results_error (f : PyVal → PyVal) (vs : List PyVal) (e : PyVal)
    (rest : List PyDict) (he : truthy e = true) :
    localStreamCall false f (vs.map resultFrame ++ errorFrame e :: rest)
      = (vs.filter (fun v => truthy v), [pyStr e], StreamOutcome.errored e) := by
  induction vs with
  | nil => simpa using localStreamCall_error_cons false f e rest he
  | cons v vs ih =>
    by_cases hv : truthy v <;>
      simp [localStreamCall_result_cons, hv, ih, List.filter_cons]

/-! ## Claim theorems -/

/-- Claim C7: registering a second endpoint whose normalized primary
path equals an already-registered endpoint's path on the same owner
fails with `DuplicatePath`; the identical normalized path on a
different owner succeeds; and the passthrough path is validated
against the grammar but never rejected for duplication. -/
theorem duplicate_path_rules (cords cords2 : List Cord) (p : String)
    (hdup : ∃ c ∈ cords, c.path = Option.some (normalizePath p))
    (hfree : ∀ c ∈ cords2, c.path ≠ Option.some (normalizePath p))
    (hvalid : PATH_RE_match (normalizePath p) = true) :
    setPath cords p = Except.error (PathError.duplicatePath (normalizePath p)) ∧
    setPath cords2 p = Except.ok (normalizePath p) ∧
    (∀ q r : String, setPassthroughPath q ≠ Except.error (PathError.duplicatePath r)) ∧
    (∀ q : String, PATH_RE_match (normalizePath q) = false →
        setPassthroughPath q = Except.error (PathError.invalidPath (normalizePath q))) := by
  refine ⟨setPath_duplicate_of cords p hdup hvalid,
          setPath_ok_of cords2 p hfree hvalid, ?_, ?_⟩
  · intro q r h
    unfold setPassthroughPath at h
    by_cases hc : (containsDoubleSlash (normalizePath q) || !PATH_RE_match (normalizePath q)) = true
    · simp only [hc, if_true] at h
      exact PathError.noConfusion (Except.error.inj h)
    · simp only [hc, if_false] at h
      simp only [Bool.not_eq_true] at hc
      rw [if_neg (by simp [hc])] at h
      exact Except.noConfusion h
  · exact setPassthroughPath_invalid_of

/-- Claim C7 witness: with `/x` already registered on the owner, a
second registration of `x` fails with `DuplicatePath /x`; on an owner
with no cords it succeeds; and the passthrough setter rejects `Foo`
with `InvalidPath`, never with `DuplicatePath`. -/
theorem duplicate_path_rules_witness :
    setPath [{ path := Option.some "/x" }] "x"
        = Except.error (PathError.duplicatePath (normalizePath "x")) ∧
    setPath [] "x" = Except.ok (normalizePath "x") ∧
    setPassthroughPath "Foo" ≠ Except.error (PathError.duplicatePath "/Foo") ∧
    setPassthroughPath "Foo" = Except.error (PathError.invalidPath (normalizePath "Foo")) := by
  have h := duplicate_path_rules [{ path := Option.some "/x" }] [] "x"
    ⟨{ path := Option.some "/x" }, by simp, rfl⟩ (by simp) (by decide)
  exact ⟨h.1, h.2.1, h.2.2.1 "Foo" "/Foo", h.2.2.2 "Foo" (by decide)⟩

/-- Claim C10: when no primary path (or no passthrough path) was
configured, binding uses the function's own name as the candidate,
normalized and validated by the same setters; a function name whose
normalized form fails the grammar makes the bind fail with
`InvalidPath`, and a grammar-valid name is stored normalized as both
the primary and the passthrough path. -/
theorem bind_validates_function_name (cords : List Cord) (w : String)
    (hfree : ∀ c ∈ cords, c.path ≠ Option.some (normalizePath w)) :
    (PATH_RE_match (normalizePath w) = false →
        bindCord cords {} w = Except.error (PathError.invalidPath (normalizePath w))) ∧
    (PATH_RE_match (normalizePath w) = true →
        bindCord cords {} w
          = Except.ok { path := Option.some (normalizePath w),
                        passthrough_path := Option.some (normalizePath w) }) ∧
    (∀ c : Cord, c.passthrough_path = Option.none →
        PATH_RE_match (normalizePath w) = false →
        bindCord cords c w = Except.error (PathError.invalidPath (normalizePath w))) := by
  refine ⟨?_, ?_, ?_⟩
  · intro hm
    simp [bindCord, Cord.trySetPath, setPath_invalid_of cords w hm]
  · intro hm
    simp [bindCord, Cord.trySetPath, Cord.trySetPassthroughPath,
      setPath_ok_of cords w hfree hm, setPassthroughPath_ok_of w hm]
  · intro c hpp hm
    cases hp : c.path with
    | none =>
      simp [bindCord, hp, Cord.trySetPath, setPath_invalid_of cords w hm]
    | some q =>
      simp [bindCord, hp, hpp, Cord.trySetPassthroughPath,
        setPassthroughPath_invalid_of w hm]

/-- Claim C10 witness: binding a function named `_foo` (underscore
leading) fails with `InvalidPath /_foo`, and binding a function named
`foo` stores `/foo` as both paths. -/
theorem bind_validates_function_name_witness :
    bindCord [] {} "_foo" = Except.error (PathError.invalidPath (normalizePath "_foo")) ∧
    bindCord [] {} "foo"
      = Except.ok { path := Option.some (normalizePath "foo"),
                    passthrough_path := Option.some (normalizePath "foo") } :=
  ⟨(bind_validates_function_name [] "_foo" (by simp)).1 (by decide),
   (bind_validates_function_name [] "foo" (by simp)).2.1 (by decide)⟩

/-- Claim C3 (code bug): the claimed retry never happens.
`backoff.on_exception` wraps the `@asynccontextmanager`-decorated
`_call`, which is not a coroutine function, so backoff's synchronous
wrapper guards only the construction of the context manager — which
cannot raise — while `StillProvisioning` is raised at `async with`
entry (cord.py line 175), outside the guarded region.  Hence for
every response sequence and every `provision_timeout` (default 180,
inert) the local call issues exactly one HTTP request: a first 503
surfaces `StillProvisioning` immediately with no retry, and any other
non-200 raises immediately with the body text as detail (the one part
of the claim the code does satisfy). -/
theorem localCallBase_single_attempt (c : Cord) (responses : Nat → Resp)
    (d : String) (s : Nat) :
    localCallBase c responses = (attemptExc (responses 0), 1) ∧
    (responses 0 = Resp.mk 503 d →
        localCallBase c responses
          = (Except.error (CallExc.stillProvisioning d), 1)) ∧
    (responses 0 = Resp.mk s d → s ≠ 503 → s ≠ 200 →
        localCallBase c responses = (Except.error (CallExc.other d), 1)) ∧
    ({} : Cord).provision_timeout = 180 := by
  have hbase : localCallBase c responses = (attemptExc (responses 0), 1) := by
    unfold localCallBase
    rw [backoffSync_callConstruct responses c.provision_timeout 0]
    rfl
  refine ⟨hbase, ?_, ?_, rfl⟩
  · intro h
    rw [hbase, h]
    rfl
  · intro h h503 h200
    rw [hbase, h]
    simp [attemptExc, h503, h200]

/-- Claim C3 witness: with the default cord (budget 180) and a backend
answering 503 first and 200 from the second request on — the claim's
retry scenario — the call surfaces `StillProvisioning` after exactly
one request instead of retrying; and a 404 first response fails after
one request with its body as detail. -/
theorem localCallBase_single_attempt_witness :
    localCallBase {} (fun n => if n == 0 then Resp.mk 503 "warming up" else Resp.mk 200 "ok")
      = (Except.error (CallExc.stillProvisioning "warming up"), 1) ∧
    localCallBase {} (fun _ => Resp.mk 404 "not found")
      = (Except.error (CallExc.other "not found"), 1) :=
  ⟨(localCallBase_single_attempt {}
      (fun n => if n == 0 then Resp.mk 503 "warming up" else Resp.mk 200 "ok")
      "warming up" 404).2.1 rfl,
   (localCallBase_single_attempt {} (fun _ => Resp.mk 404 "not found")
      "not found" 404).2.2.1 rfl (by decide) (by decide)⟩

/-- Claim C4 counterexample: with the falsy result value 0 in the first
result frame, the stream `trace, result(0), trace, result(1), error(E)`
yields only `[1]`, not `[0, 1]` as the claim (read over arbitrary
result values) requires: the truthiness guard on the result branch
drops the first result. -/
theorem stream_delivery_order_cex :
    (localStreamCall false (fun v => v)
        [traceFrame "t1" "m1", resultFrame (PyVal.int 0), traceFrame "t2" "m2",
         resultFrame (PyVal.int 1), errorFrame (PyVal.str "E")]).1
      ≠ [PyVal.int 0, PyVal.int 1] := by
  have he : (localStreamCall false (fun v => v)
      [traceFrame "t1" "m1", resultFrame (PyVal.int 0), traceFrame "t2" "m2",
       resultFrame (PyVal.int 1), errorFrame (PyVal.str "E")]).1 = [PyVal.int 1] := rfl
  rw [he]
  simp

/-- Claim C4 (amended: the result values A and B and the error value E
are truthy): for the frame sequence `trace, result(A), trace,
result(B), error(E)` the streaming local stub yields A then B in
arrival order, then raises an error carrying E; both trace frames are
logged (together with the error log line) and are never yielded. -/
theorem stream_delivery_order (A B E : PyVal) (ts1 m1 ts2 m2 : String)
    (f : PyVal → PyVal)
    (hA : truthy A = true) (hB : truthy B = true) (hE : truthy E = true) :
    localStreamCall false f
        [traceFrame ts1 m1, resultFrame A, traceFrame ts2 m2, resultFrame B, errorFrame E]
      = ([A, B],
         [traceMessage (PyVal.dict [("timestamp", PyVal.str ts1), ("message", PyVal.str m1)]),
          traceMessage (PyVal.dict [("timestamp", PyVal.str ts2), ("message", PyVal.str m2)]),
          pyStr E],
         StreamOutcome.errored E) := by
  rw [localStreamCall_trace_cons, localStreamCall_result_cons,
    localStreamCall_trace_cons, localStreamCall_result_cons,
    localStreamCall_error_cons false f E [] hE]
  simp [hA, hB]

/-- Claim C4 witness: the amended delivery-order theorem at the
concrete truthy frames `trace, result("A"), trace, result("B"),
error("boom")`. -/
theorem stream_delivery_order_witness :
    localStreamCall false (fun v => v)
        [traceFrame "t1" "m1", resultFrame (PyVal.str "A"), traceFrame "t2" "m2",
         resultFrame (PyVal.str "B"), errorFrame (PyVal.str "boom")]
      = ([PyVal.str "A", PyVal.str "B"],
         [traceMessage (PyVal.dict [("timestamp", PyVal.str "t1"), ("message", PyVal.str "m1")]),
          traceMessage (PyVal.dict [("timestamp", PyVal.str "t2"), ("message", PyVal.str "m2")]),
          pyStr (PyVal.str "boom")],
         StreamOutcome.errored (PyVal.str "boom")) :=
  stream_delivery_order (PyVal.str "A") (PyVal.str "B") (PyVal.str "boom")
    "t1" "m1" "t2" "m2" (fun v => v) rfl rfl rfl

/-- Claim C5 counterexample: for the stream `result(5), result(0)` the
unary local stub returns 5, not the value 0 of the last result event as
the claim requires: the falsy last result is dropped by the truthiness
guard. -/
theorem unary_last_result_cex :
    localCall false (fun v => v) [resultFrame (PyVal.int 5), resultFrame (PyVal.int 0)]
      ≠ Except.ok (PyVal.int 0) := by
  have he : localCall false (fun v => v)
      [resultFrame (PyVal.int 5), resultFrame (PyVal.int 0)]
        = Except.ok (PyVal.int 5) := rfl
  rw [he]
  simp

/-- Claim C5 (amended: the unary local stub returns the value of the
last truthy result event, or None when no truthy result was emitted;
falsy result events are dropped): any error event with a truthy error
value aborts the call by raising that error; trace events are logged
and skipped and never become the return value. -/
theorem unary_last_truthy_result (f : PyVal → PyVal) :
    (∀ vs : List PyVal,
        localCall false f (vs.map resultFrame)
          = Except.ok (((vs.filter (fun v => truthy v)).getLast?).getD PyVal.none)) ∧
    (∀ (vs : List PyVal) (e : PyVal) (rest : List PyDict), truthy e = true →
        localCall false f (vs.map resultFrame ++ errorFrame e :: rest)
          = Except.error e) ∧
    (∀ (ts m : String) (rest : List PyDict),
        localStreamCall false f (traceFrame ts m :: rest)
          = ((localStreamCall false f rest).1,
             traceMessage (PyVal.dict [("timestamp", PyVal.str ts), ("message", PyVal.str m)])
               :: (localStreamCall false f rest).2.1,
             (localStreamCall false f rest).2.2)) := by
  refine ⟨?_, ?_, ?_⟩
  · intro vs
    unfold localCall
    rw [localStreamCall_results f vs]
  · intro vs e rest he
    unfold localCall
    rw [localStreamCall_results_error f vs e rest he]
  · intro ts m rest
    exact localStreamCall_trace_cons false f ts m rest

/-- Claim C5 witness: the amended theorem at the stream
`result(5), result(0)` (returns 5, the last truthy result) and at the
stream `error("E")` (raises E). -/
theorem unary_last_truthy_result_witness :
    localCall false (fun v => v) ([PyVal.int 5, PyVal.int 0].map resultFrame)
        = Except.ok ((([PyVal.int 5, PyVal.int 0].filter
            (fun v => truthy v)).getLast?).getD PyVal.none) ∧
    localCall false (fun v => v)
        (([] : List PyVal).map resultFrame ++ errorFrame (PyVal.str "E") :: [])
      = Except.error (PyVal.str "E") :=
  ⟨(unary_last_truthy_result (fun v => v)).1 [PyVal.int 5, PyVal.int 0],
   (unary_last_truthy_result (fun v => v)).2.1 [] (PyVal.str "E") [] rfl⟩

/-- Claim C9: a result event with a falsy value is silently dropped by
the streaming local stub — the frame contributes no yield, no log and
no post-processing — while a result event with a truthy value is
delivered (post-processed by the wrapped function exactly when the
cord is a passthrough). -/
theorem falsy_result_dropped (p : Bool) (f : PyVal → PyVal) (v : PyVal)
    (rest : List PyDict) :
    (truthy v = false →
        localStreamCall p f (resultFrame v :: rest) = localStreamCall p f rest) ∧
    (truthy v = true →
        localStreamCall p f (resultFrame v :: rest)
          = ((if p then f v else v) :: (localStreamCall p f rest).1,
             (localStreamCall p f rest).2.1, (localStreamCall p f rest).2.2)) := by
  constructor <;> intro hv <;> simp [localStreamCall_result_cons, hv]

/-- Claim C9 witness: the result value 0 is dropped while the result
value 7 is yielded. -/
theorem falsy_result_dropped_witness :
    localStreamCall false (fun v => v) [resultFrame (PyVal.int 0)]
        = localStreamCall false (fun v => v) [] ∧
    localStreamCall false (fun v => v) [resultFrame (PyVal.int 7)]
        = (PyVal.int 7 :: (localStreamCall false (fun v => v) []).1,
           (localStreamCall false (fun v => v) []).2.1,
           (localStreamCall false (fun v => v) []).2.2) :=
  ⟨(falsy_result_dropped false (fun v => v) (PyVal.int 0) []).1 rfl,
   (falsy_result_dropped false (fun v => v) (PyVal.int 7) []).2 rfl⟩

/-- Claim C8: on a passthrough endpoint the remote handler relays the
sidecar unchanged — a sidecar 200 with JSON body is returned as-is by
the unary handler, a sidecar body of chunks is streamed chunk-for-chunk
in order, a sidecar failure propagates immediately, and only the first
(single) sidecar call determines the outcome (no retry). -/
theorem passthrough_relay (c : Cord) (func : PyVal → PyVal)
    (fs : PyVal → List (List Nat)) (sidecar : Nat → Except String SidecarResponse)
    (r : SidecarResponse) (e : String) (arg : PyVal)
    (hp : c.passthrough = true) :
    (sidecar 0 = Except.ok r → remoteCall c func sidecar arg = Except.ok r.jsonBody) ∧
    (sidecar 0 = Except.ok r → remoteStreamCall c fs sidecar arg = Except.ok r.chunks) ∧
    (sidecar 0 = Except.error e →
        remoteCall c func sidecar arg = Except.error e ∧
        remoteStreamCall c fs sidecar arg = Except.error e) ∧
    (∀ sidecar2 : Nat → Except String SidecarResponse, sidecar2 0 = sidecar 0 →
        remoteCall c func sidecar2 arg = remoteCall c func sidecar arg ∧
        remoteStreamCall c fs sidecar2 arg = remoteStreamCall c fs sidecar arg) := by
  refine ⟨?_, ?_, ?_, ?_⟩
  · intro h
    simp [remoteCall, passthroughCall, hp, h]
  · intro h
    simp [remoteStreamCall, passthroughCall, hp, h]
  · intro h
    constructor
    · simp [remoteCall, passthroughCall, hp, h]
    · simp [remoteStreamCall, passthroughCall, hp, h]
  · intro sidecar2 h
    constructor
    · simp [remoteCall, passthroughCall, hp, h]
    · simp [remoteStreamCall, passthroughCall, hp, h]

/-- Claim C8 witness: a sidecar answering 200 with body `x: 1` and
chunks `b"1", b"2"` (bytes 49 and 50) is relayed unchanged by the unary
and the streaming remote handler. -/
theorem passthrough_relay_witness :
    remoteCall { passthrough := true } (fun v => v)
        (fun _ => Except.ok (SidecarResponse.mk 200
          (PyVal.dict [("x", PyVal.int 1)]) [[49], [50]])) PyVal.none
      = Except.ok (PyVal.dict [("x", PyVal.int 1)]) ∧
    remoteStreamCall { passthrough := true } (fun _ => [])
        (fun _ => Except.ok (SidecarResponse.mk 200
          (PyVal.dict [("x", PyVal.int 1)]) [[49], [50]])) PyVal.none
      = Except.ok [[49], [50]] :=
  ⟨(passthrough_relay { passthrough := true } (fun v => v) (fun _ => [])
      (fun _ => Except.ok (SidecarResponse.mk 200
        (PyVal.dict [("x", PyVal.int 1)]) [[49], [50]]))
      (SidecarResponse.mk 200 (PyVal.dict [("x", PyVal.int 1)]) [[49], [50]])
      "" PyVal.none rfl).1 rfl,
   (passthrough_relay { passthrough := true } (fun v => v) (fun _ => [])
      (fun _ => Except.ok (SidecarResponse.mk 200
        (PyVal.dict [("x", PyVal.int 1)]) [[49], [50]]))
      (SidecarResponse.mk 200 (PyVal.dict [("x", PyVal.int 1)]) [[49], [50]])
      "" PyVal.none rfl).2.1 rfl⟩

/-- Claim C2 (code bug): a request whose args decode is rejected by the
safety-checking deserializer is refused before any user code runs (the
outcome does not depend on the wrapped function), but the handler does
not answer 401: the except branch evaluates `status.HTTP_401_FORBIDDEN`,
an attribute that does not exist in the starlette/fastapi status module
(which has `HTTP_401_UNAUTHORIZED` and `HTTP_403_FORBIDDEN`), so the
branch raises `AttributeError` and the response is a generic server
error rather than the intended auth-forbidden failure. -/
theorem hazardous_payload_blocked (c : Cord) (func : PyVal → PyVal)
    (fs : PyVal → List (List Nat)) (sidecar : Nat → Except String SidecarResponse)
    (exc : String) (dk : Except String PyVal) :
    requestHandler c func fs sidecar (Except.error exc) dk
        = HandlerResult.serverError
            "AttributeError: module starlette.status has no attribute HTTP_401_FORBIDDEN" ∧
    (∀ (code : Nat) (detail : String),
        requestHandler c func fs sidecar (Except.error exc) dk
          ≠ HandlerResult.httpError code detail) ∧
    (∀ g : PyVal → PyVal,
        requestHandler c g fs sidecar (Except.error exc) dk
          = requestHandler c func fs sidecar (Except.error exc) dk) ∧
    statusAttr "HTTP_401_FORBIDDEN" = Option.none ∧
    statusAttr "HTTP_401_UNAUTHORIZED" = Option.some 401 ∧
    statusAttr "HTTP_403_FORBIDDEN" = Option.some 403 := by
  refine ⟨rfl, ?_, fun g => rfl, rfl, rfl, rfl⟩
  intro code detail h
  have he : requestHandler c func fs sidecar (Except.error exc) dk
      = HandlerResult.serverError
          "AttributeError: module starlette.status has no attribute HTTP_401_FORBIDDEN" := rfl
  rw [he] at h
  exact HandlerResult.noConfusion h

/-- Claim C2 witness: the handler at a concrete hazardous payload (an
args pickle rejected with a concrete reason) yields the generic server
error and differs from every 401 response. -/
theorem hazardous_payload_blocked_witness :
    requestHandler {} (fun v => v) (fun _ => []) (fun _ => Except.error "down")
        (Except.error "call to builtins.exec") (Except.ok PyVal.none)
      = HandlerResult.serverError
          "AttributeError: module starlette.status has no attribute HTTP_401_FORBIDDEN" ∧
    requestHandler {} (fun v => v) (fun _ => []) (fun _ => Except.error "down")
        (Except.error "call to builtins.exec") (Except.ok PyVal.none)
      ≠ HandlerResult.httpError 401
          (hazardMessage "call to builtins.exec") :=
  ⟨(hazardous_payload_blocked {} (fun v => v) (fun _ => [])
      (fun _ => Except.error "down") "call to builtins.exec" (Except.ok PyVal.none)).1,
   (hazardous_payload_blocked {} (fun v => v) (fun _ => [])
      (fun _ => Except.error "down") "call to builtins.exec" (Except.ok PyVal.none)).2.1
      401 (hazardMessage "call to builtins.exec")⟩

/-- Claim C1: decoding the encoded envelope recovers the original
(args, kwargs) pair — the decode chain `deserialize ∘ decompress ∘
text-decode` applied componentwise inverts the encode chain
`text-encode ∘ compress ∘ serialize`, given the round-trip contracts
of the serializer (pickle), the compressor (gzip) and the text codec
(base64) at the encoded values, the serialized pair being safe for the
checking deserializer. -/
theorem envelope_roundtrip (dumps : PyVal → List Nat)
    (loads : List Nat → Except String PyVal)
    (compress decompress : List Nat → List Nat)
    (enc64 : List Nat → String) (dec64 : String → List Nat) (args kwargs : PyVal)
    (hb1 : dec64 (enc64 (compress (dumps args))) = compress (dumps args))
    (hb2 : dec64 (enc64 (compress (dumps kwargs))) = compress (dumps kwargs))
    (hg1 : decompress (compress (dumps args)) = dumps args)
    (hg2 : decompress (compress (dumps kwargs)) = dumps kwargs)
    (hl1 : loads (dumps args) = Except.ok args)
    (hl2 : loads (dumps kwargs) = Except.ok kwargs) :
    decodeEnvelope loads decompress dec64
        (encodeEnvelope dumps compress enc64 args kwargs).1
        (encodeEnvelope dumps compress enc64 args kwargs).2
      = Except.ok (args, kwargs) := by
  simp [decodeEnvelope, encodeEnvelope, decodeOne, encodeOne, hb1, hb2, hg1, hg2, hl1, hl2]

/-- Claim C1 witness: the round-trip theorem instantiated with the
executable collaborator stand-ins at concrete composite args (a list
of an int, a str and None) and kwargs (a dict with a bool and a
negative int). -/
theorem envelope_roundtrip_witness :
    decodeEnvelope pvLoads gzipDecompress textDecode
        (encodeEnvelope pvEnc gzipCompress textEncode argsSample kwargsSample).1
        (encodeEnvelope pvEnc gzipCompress textEncode argsSample kwargsSample).2
      = Except.ok (argsSample, kwargsSample) :=
  envelope_roundtrip pvEnc pvLoads gzipCompress gzipDecompress textEncode textDecode
    argsSample kwargsSample rfl rfl rfl rfl rfl rfl

end Chutes
